import Mathlib

/-!
Verification development for the ertza control-node repository.

Python strings are embedded as `List Char`; Python exceptions that escape a
function are embedded as the `Except.error` branch of an `Except PyErr`
result, while a normal return is `Except.ok`.  Each definition mirrors one
function or method of the sources (`MachineCommands.py`, `Osc.py`,
`gpio.py`); definitions whose Python counterpart is outside the analysed
sources are marked `Modelled from the spec:` in their doc comment.
-/

/-- Python exceptions that can escape the embedded functions. -/
inductive PyErr where
  | attributeError (name : String)
  | nameError (name : String)
  | unboundLocalError (name : String)
  | indexError
  | keyError (key : String)
  | valueError
  | ioError
deriving DecidableEq

/-- `startsWith pat s` is true when `pat` is an initial segment of `s`
(the building block for Python substring search and `str.replace`). -/
def startsWith : List Char → List Char → Bool
  | [], _ => true
  | _ :: _, [] => false
  | p :: ps, c :: cs => if p = c then startsWith ps cs else false

/-- `occursIn pat s` embeds Python's substring containment `pat in s`. -/
def occursIn (pat : List Char) : List Char → Bool
  | [] => pat.isEmpty
  | c :: rest => startsWith pat (c :: rest) || occursIn pat rest

/-- `removeFirst pat s` embeds Python's `s.replace(pat, '', 1)` for a
non-empty `pat`: the leftmost occurrence of `pat` is deleted, the rest of
the string is kept unchanged. -/
def removeFirst (pat : List Char) : List Char → List Char
  | [] => []
  | c :: rest =>
    if startsWith pat (c :: rest) then List.drop pat.length (c :: rest)
    else c :: removeFirst pat rest

/-- `endsWith pat s` is true when `pat` is a final segment of `s`. -/
def endsWith (pat s : List Char) : Bool :=
  startsWith pat.reverse s.reverse

/-- `splitOnChar d s` splits `s` at every occurrence of the delimiter `d`,
keeping empty segments; it expresses the spec's reading of a canonical key
as a segment sequence. -/
def splitOnChar (d : Char) : List Char → List (List Char)
  | [] => [[]]
  | c :: rest =>
    if c = d then [] :: splitOnChar d rest
    else
      match splitOnChar d rest with
      | s :: ss => (c :: s) :: ss
      | [] => [[c]]

/-- Character-level step of `k.replace('.', ':')`. -/
def canonChar (c : Char) : Char :=
  if c = '.' then ':' else c

/-- Path canonicalization as performed by both serial machine-command
handlers: `nk = k.replace('.', ':')`, i.e. every dot becomes a colon
(`MachineCommands.py`). -/
def canonKey (k : List Char) : List Char :=
  k.map canonChar

/-- The dot-delimited spelling of a key: every colon replaced by a dot.
Two keys related by `colonToDot` "differ only in using dot versus colon as
the delimiter" in the spec's words. -/
def colonToDot (k : List Char) : List Char :=
  k.map fun c => if c = ':' then '.' else c

/-- Modelled from the spec: the MachineStore ("a mapping from canonical
path to scalar value, last write wins").  The `Machine` class the handlers
index into is not among the analysed sources; it is represented as an
association list in which the most recent write shadows older ones, and a
lookup of an absent key yields `none` (the spec's `UnknownKeyError` /
Python's `KeyError` situation). -/
def MachineStore : Type := List (List Char × List Char)

/-- Write `v` under canonical key `k` (`self.machine[nk] = v`). -/
def MachineStore.set (st : MachineStore) (k v : List Char) : MachineStore :=
  (k, v) :: st

/-- Read the value under canonical key `k` (`self.machine[nk]`), `none`
when the key was never written. -/
def MachineStore.get : MachineStore → List Char → Option (List Char)
  | [], _ => none
  | (k', v') :: rest, k => if k = k' then some v' else MachineStore.get rest k

/-- Modelled from the spec: a serial reply is an ok reply or an error
reply carrying the handler's echoed arguments.  `SerialCommand.ok` /
`SerialCommand.error` (not among the analysed sources) build exactly these
replies from the arguments the handler passes them. -/
inductive Reply where
  | ok (args : List (List Char))
  | error (args : List (List Char))
deriving DecidableEq

/-- Diagnostic text of the arity guard in `MachineSet.execute`:
`'Invalid number of arguments for %s' % self.alias`. -/
def setArityMsg : List Char :=
  "Invalid number of arguments for machine.set".data

/-- Diagnostic text of the arity guard in `MachineGet.execute`. -/
def getArityMsg : List Char :=
  "Invalid number of arguments for machine.get".data

/-- Modelled from the spec: diagnostic string of the store's
UnknownKeyError for the canonical key `nk` (the handler forwards `str(e)`
into the error reply). -/
def unknownKeyMsg (nk : List Char) : List Char :=
  "UnknownKeyError: ".data ++ nk

/-- `MachineSet.execute` from `commands/serial/MachineCommands.py`.
With fewer than two arguments the guard replies with the arity error.
Otherwise `k, v, = c.args` unpacks: with exactly two arguments the handler
canonicalizes the key, writes the store and replies ok echoing `(k, v)`.
With three or more arguments the unpacking raises `ValueError`; the
`except` clause then evaluates `self.error(c, k, str(e))`, but `k` was
never bound, so an `UnboundLocalError` escapes `execute` and no reply is
produced. -/
def MachineSet.execute (store : MachineStore) (args : List (List Char)) :
    Except PyErr (MachineStore × Reply) :=
  if args.length < 2 then Except.ok (store, Reply.error [setArityMsg])
  else
    match args with
    | [k, v] =>
      Except.ok (MachineStore.set store (canonKey k) v, Reply.ok [k, v])
    | _ => Except.error (PyErr.unboundLocalError "k")

/-- `MachineGet.execute` from `commands/serial/MachineCommands.py`.
Any argument count other than one replies with the arity error.  With one
argument the handler canonicalizes the key and reads the store; a missing
key raises inside the `try` and is answered by the `except` clause with
`self.error(c, k, str(e))` (here `k` is bound, the single-element unpack
succeeded). -/
def MachineGet.execute (store : MachineStore) (args : List (List Char)) :
    Except PyErr (MachineStore × Reply) :=
  match args with
  | [k] =>
    match MachineStore.get store (canonKey k) with
    | some v => Except.ok (store, Reply.ok [k, v])
    | none => Except.ok (store, Reply.error [k, unknownKeyMsg (canonKey k)])
  | _ => Except.ok (store, Reply.error [getArityMsg])

/-- The literal `'/ok'` of `OscMessage.uid` (`processors/osc/Osc.py`). -/
def OscMessage.okPat : List Char := "/ok".data

/-- The literal `'/error'` of `OscMessage.uid`. -/
def OscMessage.errPat : List Char := "/error".data

/-- The literal `'/ping'` of `OscMessage.uid`. -/
def OscMessage.pingPat : List Char := "/ping".data

/-- The cleaned path computed by `OscMessage.uid`:
`self.path.replace('/ok', '', 1).replace('/error', '', 1)` — the first
occurrence of `'/ok'` anywhere in the path is deleted, then the first
occurrence of `'/error'` in the result. -/
def OscMessage.cleanPath (path : List Char) : List Char :=
  removeFirst OscMessage.errPat (removeFirst OscMessage.okPat path)

/-- `OscMessage.uid` from `processors/osc/Osc.py`.  After cleaning the
path, a path containing `'/ping'` yields the cleaned path alone; otherwise
`key_arg = self.args[0]` (raising `IndexError` when the argument list is
empty) and the uid is `' '.join((clean_path, key_arg))`. -/
def OscMessage.uid (path : List Char) (args : List (List Char)) :
    Except PyErr (List Char) :=
  let clean := OscMessage.cleanPath path
  if occursIn OscMessage.pingPat clean then Except.ok clean
  else
    match args with
    | [] => Except.error PyErr.indexError
    | a :: _ => Except.ok (clean ++ ' ' :: a)

/-- Modelled from the spec: the path of the ok reply to a request — "a
reply NormalizedCommand whose command_name is the original alias suffixed
with an ok marker"; for the OSC transport the marker is appended to the
path. -/
def OscMessage.replyPathOk (p : List Char) : List Char :=
  p ++ OscMessage.okPat

/-- Modelled from the spec: the path of the error reply to a request. -/
def OscMessage.replyPathError (p : List Char) : List Char :=
  p ++ OscMessage.errPat

/-- The spec's own derivation of the correlation id, for comparison with
the source's `OscMessage.uid`: the "command_name minus any ok/error
SUFFIX" — only a trailing `'/ok'` or `'/error'` marker is stripped — then
the same ping rule and join as the source. -/
def OscMessage.stripReplySuffix (p : List Char) : List Char :=
  if endsWith OscMessage.okPat p then p.take (p.length - OscMessage.okPat.length)
  else if endsWith OscMessage.errPat p then p.take (p.length - OscMessage.errPat.length)
  else p

/-- The correlation id as described by the spec's words (suffix removal),
to be compared with the source's first-occurrence removal in
`OscMessage.uid`. -/
def OscMessage.uidSpec (path : List Char) (args : List (List Char)) :
    Except PyErr (List Char) :=
  let clean := OscMessage.stripReplySuffix path
  if occursIn OscMessage.pingPat clean then Except.ok clean
  else
    match args with
    | [] => Except.error PyErr.indexError
    | a :: _ => Except.ok (clean ++ ' ' :: a)

/-- The per-pin GPIO facts `SwitchHandler.update_state` consults on one
poll: whether `GPIO.event_detected(pin)` reports an edge event since the
previous poll, and the level `GPIO.input(pin)` currently reads. -/
structure GpioPinState where
  eventDetected : Bool
  input : Bool
deriving DecidableEq

/-- The mutable state of one `SwitchHandler` (`remotes/gpio.py`): its
`state` attribute (last stored pin level) and the `invert` flag handed to
the constructor. -/
structure SwitchHandlerState where
  state : Bool
  invert : Bool
deriving DecidableEq

/-- `SwitchHandler.update_state` from `remotes/gpio.py`: when an edge
event was detected the freshly read level is stored in `self.state` and
`True` is returned; otherwise the state is untouched and `None` is
returned.  The result pair is (state after the call, returned value). -/
def SwitchHandler.update_state (g : GpioPinState) (s : SwitchHandlerState) :
    SwitchHandlerState × Option Bool :=
  if g.eventDetected then ({ s with state := g.input }, some true)
  else (s, none)

/-- The loop body of `RemoteServer.detect_gpio_state` for one handler:
`if p.update_state(): self.mdb_request.trigger(p.action, p.state)` —
returns the handler state after the poll and the list of submitted
triggers (action, carried state). -/
def RemoteServer.detect_gpio_step (g : GpioPinState) (s : SwitchHandlerState)
    (action : String) : SwitchHandlerState × List (String × Bool) :=
  match SwitchHandler.update_state g s with
  | (s', some _) => (s', [(action, s'.state)])
  | (s', none) => (s', [])

/-- Outcome of the sensor-file access in `TempWatcher.get_temperature`:
the file opened and parsed to a raw ADC value, the `open` itself failed,
the read inside the `try` failed with `IOError`, or the file content did
not parse as a float. -/
inductive ReadOutcome where
  | ok (raw : Rat)
  | openFail
  | readFail
  | badContent
deriving DecidableEq

/-- The attributes `TempWatcher.__init__` stores on the instance (numeric
ones; the sensor path, the fan handle, `fan_pin` and `map_table` are
hardware handles irrelevant to the numeric dynamics), plus the four error
attributes that only `get_error` ever assigns — `none` while unset, so
that reading one before its first assignment is an `AttributeError`,
exactly as in Python. -/
structure TempWatcher where
  target_temp : Rat
  beta : Rat
  coeff_g : Rat
  coeff_ti : Rat
  coeff_td : Rat
  error : Option Rat
  error_last : Option Rat
  error_sum : Option Rat
  error_delta : Option Rat
deriving DecidableEq

/-- A freshly constructed watcher: `__init__` sets the coefficients
(`coeff_g = 1`, `coeff_ti = 0.1`, `coeff_td = 0.1`), the target, and none
of the error attributes. -/
def TempWatcher.init (target : Rat) : TempWatcher :=
  { target_temp := target, beta := 3977, coeff_g := 1,
    coeff_ti := 1/10, coeff_td := 1/10,
    error := none, error_last := none, error_sum := none,
    error_delta := none }

/-- Python attribute read `self.<name>` on a `TempWatcher` instance for
numeric attributes: the names enumerated here are exactly the numeric
attributes the constructor sets plus the four `get_error` assigns; any
other name (`target`, `coef_td`, `p`, `i`, `d`, …) is an
`AttributeError`, and so is reading an error attribute before its first
assignment. -/
def TempWatcher.getattr (s : TempWatcher) (name : String) : Except PyErr Rat :=
  if name = "target_temp" then Except.ok s.target_temp
  else if name = "beta" then Except.ok s.beta
  else if name = "coeff_g" then Except.ok s.coeff_g
  else if name = "coeff_ti" then Except.ok s.coeff_ti
  else if name = "coeff_td" then Except.ok s.coeff_td
  else if name = "error" then
    match s.error with
    | some x => Except.ok x
    | none => Except.error (PyErr.attributeError name)
  else if name = "error_last" then
    match s.error_last with
    | some x => Except.ok x
    | none => Except.error (PyErr.attributeError name)
  else if name = "error_sum" then
    match s.error_sum with
    | some x => Except.ok x
    | none => Except.error (PyErr.attributeError name)
  else if name = "error_delta" then
    match s.error_delta with
    | some x => Except.ok x
    | none => Except.error (PyErr.attributeError name)
  else Except.error (PyErr.attributeError name)

/-- `TempWatcher.voltage_to_resistance` from `remotes/gpio.py` (1.8 and
0.001 embedded exactly as the rationals 9/5 and 1/1000). -/
def TempWatcher.voltage_to_resistance (v : Rat) : Rat :=
  if v = 0 ∨ |v - 9/5| < 1/1000 then 10000000
  else 4700 / (9/5 / v - 1)

/-- `TempWatcher.resistance_to_degrees` from `remotes/gpio.py`: the body
just returns the resistor value. -/
def TempWatcher.resistance_to_degrees (r : Rat) : Rat := r

/-- `TempWatcher.get_temperature` from `remotes/gpio.py`.  On a parsed
reading the voltage `(raw / 4095.0) * 1.8` is converted to a resistance
and then to degrees.  `open(self.sensor)` sits outside the `try`, so a
failing open propagates its `IOError`.  A read failing inside the `try`
is caught by `except IOError`, whose first statement is
`logging.error(...)`; `gpio.py` never imports `logging` at module scope
(the `import logging` inside `RemoteServer.__init__` is local to that
function), so the handler itself raises `NameError` and the
`return -1.0` below it is unreachable.  A non-float file content raises
`ValueError` in `float(...)`, which `except IOError` does not catch. -/
def TempWatcher.get_temperature : ReadOutcome → Except PyErr Rat
  | ReadOutcome.ok raw =>
    Except.ok (TempWatcher.resistance_to_degrees
      (TempWatcher.voltage_to_resistance (raw / 4095 * (9/5))))
  | ReadOutcome.openFail => Except.error PyErr.ioError
  | ReadOutcome.readFail => Except.error (PyErr.nameError "logging")
  | ReadOutcome.badContent => Except.error PyErr.valueError

/-- `TempWatcher.get_error` from `remotes/gpio.py`, statement by
statement: `self.error_last = self.error` (reads `error`),
`self.error = self.target - self.get_temperature()` (reads `target` — an
attribute that does not exist, the constructor sets `target_temp` — then
would read the sensor), `self.error_sum += self.error`,
`self.error_delta = self.error - self.error_last`. -/
def TempWatcher.get_error (s : TempWatcher) (r : ReadOutcome) :
    Except PyErr TempWatcher := do
  let e0 ← s.getattr "error"
  let s1 := { s with error_last := some e0 }
  let t ← s1.getattr "target"
  let temp ← TempWatcher.get_temperature r
  let e := t - temp
  let s2 := { s1 with error := some e }
  let es ← s2.getattr "error_sum"
  let s3 := { s2 with error_sum := some (es + e) }
  let el ← s3.getattr "error_last"
  pure { s3 with error_delta := some (e - el) }

/-- `TempWatcher.get_p`: `return self.error * self.coeff_g`. -/
def TempWatcher.get_p (s : TempWatcher) : Except PyErr Rat := do
  let e ← s.getattr "error"
  let g ← s.getattr "coeff_g"
  pure (e * g)

/-- `TempWatcher.get_i`: `return self.error_sum * self.coeff_ti`. -/
def TempWatcher.get_i (s : TempWatcher) : Except PyErr Rat := do
  let es ← s.getattr "error_sum"
  let ti ← s.getattr "coeff_ti"
  pure (es * ti)

/-- `TempWatcher.get_d`: `return self.coef_td * self.error_delta` — note
the source reads `coef_td`, while the constructor sets `coeff_td`. -/
def TempWatcher.get_d (s : TempWatcher) : Except PyErr Rat := do
  let c ← s.getattr "coef_td"
  let d ← s.getattr "error_delta"
  pure (c * d)

/-- Python zero-argument numeric method call `self.<name>()` on a
`TempWatcher`: the class body defines `get_p`, `get_i` and `get_d`; any
other name — in particular the `p`, `i`, `d` that `get_pid` calls — is an
`AttributeError`. -/
def TempWatcher.callNumMethod (s : TempWatcher) (name : String) :
    Except PyErr Rat :=
  if name = "get_p" then s.get_p
  else if name = "get_i" then s.get_i
  else if name = "get_d" then s.get_d
  else Except.error (PyErr.attributeError name)

/-- `TempWatcher.get_pid` from `remotes/gpio.py`:
`return self.p() + self.i() + self.d()` — the three attribute lookups
are evaluated left to right. -/
def TempWatcher.get_pid (s : TempWatcher) : Except PyErr Rat := do
  let a ← s.callNumMethod "p"
  let b ← s.callNumMethod "i"
  let c ← s.callNumMethod "d"
  pure (a + b + c)

/-- `TempWatcher.set_pid` from `remotes/gpio.py`: `self.get_error()`,
then `_cmd = self.get_pid()`, then `self.fan.set_duty_cycle(_cmd)`.  The
result pair is (watcher state after the tick, duty cycle handed to the
fan). -/
def TempWatcher.set_pid (s : TempWatcher) (r : ReadOutcome) :
    Except PyErr (TempWatcher × Rat) := do
  let s1 ← s.get_error r
  let cmd ← s1.get_pid
  pure (s1, cmd)

theorem canonChar_idem (c : Char) : canonChar (canonChar c) = canonChar c := by
  by_cases h : c = '.'
  · subst h; rfl
  · simp [canonChar, h]

theorem canonChar_colonToDot (c : Char) :
    canonChar (if c = ':' then '.' else c) = canonChar c := by
  by_cases h : c = ':'
  · subst h; rfl
  · simp [h]

theorem startsWith_iff (pat s : List Char) :
    startsWith pat s = true ↔ ∃ t, s = pat ++ t := by
  induction pat generalizing s with
  | nil => simp [startsWith]
  | cons p ps ih =>
    cases s with
    | nil =>
      constructor
      · intro h; simp [startsWith] at h
      · rintro ⟨t, ht⟩; cases ht
    | cons c cs =>
      constructor
      · intro h
        by_cases hpc : p = c
        · subst hpc
          obtain ⟨t, rfl⟩ := (ih cs).mp (by simpa [startsWith] using h)
          exact ⟨t, rfl⟩
        · simp [startsWith, hpc] at h
      · rintro ⟨t, ht⟩
        injection ht with h1 h2
        subst h1
        simp [startsWith, (ih cs).mpr ⟨t, h2⟩]

theorem startsWith_self (l : List Char) : startsWith l l = true :=
  (startsWith_iff l l).mpr ⟨[], (List.append_nil l).symm⟩

theorem startsWith_take (l : List Char) (n : Nat) :
    startsWith (l.take n) l = true :=
  (startsWith_iff _ _).mpr ⟨l.drop n, (List.take_append_drop n l).symm⟩

theorem startsWith_of_append_le (pat u X t : List Char)
    (hEq : u ++ X = pat ++ t) (hm : pat.length ≤ u.length) :
    startsWith pat u = true := by
  have h1 : pat = u.take pat.length := by
    have h := congrArg (List.take pat.length) hEq
    rw [List.take_append_of_le_length hm, List.take_left] at h
    exact h.symm
  refine (startsWith_iff _ _).mpr ⟨u.drop pat.length, ?_⟩
  conv_lhs => rw [← List.take_append_drop pat.length u]
  rw [← h1]

theorem startsWith_drop_of_append_gt (pat u X t : List Char)
    (hEq : u ++ X = pat ++ t) (hm : u.length < pat.length) :
    startsWith (pat.drop u.length) X = true := by
  have h1 : pat = u ++ X.take (pat.length - u.length) := by
    have h := congrArg (List.take pat.length) hEq
    rw [List.take_left, List.take_append_eq_append_take,
        List.take_of_length_le (Nat.le_of_lt hm)] at h
    exact h.symm
  have h2 : pat.drop u.length = X.take (pat.length - u.length) := by
    conv_lhs => rw [h1]
    rw [List.drop_left]
  rw [h2]
  exact startsWith_take X _

theorem removeFirst_of_not_occurs (pat s : List Char)
    (h : occursIn pat s = false) : removeFirst pat s = s := by
  induction s with
  | nil => rfl
  | cons c rest ih =>
    have hp : startsWith pat (c :: rest) = false ∧ occursIn pat rest = false := by
      simpa [occursIn, Bool.or_eq_false_iff] using h
    simp [removeFirst, hp.1, ih hp.2]

theorem occursIn_append_false (pat s q : List Char)
    (hcross : ∀ i, 0 < i → i < pat.length → startsWith (pat.drop i) q = false)
    (hs : occursIn pat s = false) (hq : occursIn pat q = false) :
    occursIn pat (s ++ q) = false := by
  induction s with
  | nil => simpa using hq
  | cons c s' ih =>
    have hp : startsWith pat (c :: s') = false ∧ occursIn pat s' = false := by
      simpa [occursIn, Bool.or_eq_false_iff] using hs
    have hrec := ih hp.2
    have hsw : startsWith pat (c :: (s' ++ q)) = false := by
      cases hX : startsWith pat (c :: (s' ++ q)) with
      | false => rfl
      | true =>
        exfalso
        obtain ⟨t, hEq⟩ := (startsWith_iff _ _).mp hX
        have hEq' : (c :: s') ++ q = pat ++ t := hEq
        rcases Nat.lt_or_ge (c :: s').length pat.length with hlt | hge
        · have hdrop := startsWith_drop_of_append_gt pat (c :: s') q t hEq' hlt
          have hz := hcross (c :: s').length (by simp) hlt
          rw [hz] at hdrop
          exact Bool.noConfusion hdrop
        · have hsw2 := startsWith_of_append_le pat (c :: s') q t hEq' hge
          rw [hp.1] at hsw2
          exact Bool.noConfusion hsw2
    simp [occursIn, hsw, hrec]

theorem removeFirst_append_self (pat s : List Char) (hne : pat ≠ [])
    (hself : ∀ i, 0 < i → i < pat.length → startsWith (pat.drop i) pat = false)
    (hs : occursIn pat s = false) :
    removeFirst pat (s ++ pat) = s := by
  induction s with
  | nil =>
    simp only [List.nil_append]
    cases pat with
    | nil => exact absurd rfl hne
    | cons p ps =>
      simp [removeFirst, startsWith_self, List.drop_length]
  | cons c s' ih =>
    have hp : startsWith pat (c :: s') = false ∧ occursIn pat s' = false := by
      simpa [occursIn, Bool.or_eq_false_iff] using hs
    have hsw : startsWith pat (c :: (s' ++ pat)) = false := by
      cases hX : startsWith pat (c :: (s' ++ pat)) with
      | false => rfl
      | true =>
        exfalso
        obtain ⟨t, hEq⟩ := (startsWith_iff _ _).mp hX
        have hEq' : (c :: s') ++ pat = pat ++ t := hEq
        rcases Nat.lt_or_ge (c :: s').length pat.length with hlt | hge
        · have hdrop := startsWith_drop_of_append_gt pat (c :: s') pat t hEq' hlt
          have hz := hself (c :: s').length (by simp) hlt
          rw [hz] at hdrop
          exact Bool.noConfusion hdrop
        · have hsw2 := startsWith_of_append_le pat (c :: s') pat t hEq' hge
          rw [hp.1] at hsw2
          exact Bool.noConfusion hsw2
    simp [removeFirst, hsw, ih hp.2]

theorem overlap_of_all (pat q : List Char)
    (h : (List.range pat.length).all
      (fun i => decide (i = 0) || !(startsWith (pat.drop i) q)) = true) :
    ∀ i, 0 < i → i < pat.length → startsWith (pat.drop i) q = false := by
  intro i hi hlt
  have hx := List.all_eq_true.mp h i (List.mem_range.mpr hlt)
  simp only [Bool.or_eq_true, decide_eq_true_eq, Bool.not_eq_true'] at hx
  rcases hx with h0 | hf
  · omega
  · exact hf

/-- C1: for every key `k` and value `v`, `machine.set(k, v)` followed by
`machine.get(k)` on the resulting store yields an ok reply echoing `k` and
the value `v` — both handlers canonicalize `k` with the same
`replace('.', ':')` before touching the store, so the read hits the
freshly written entry (read-after-write consistency). -/
theorem machine_set_then_get_roundtrip (store : MachineStore) (k v : List Char) :
    MachineSet.execute store [k, v] =
      Except.ok (MachineStore.set store (canonKey k) v, Reply.ok [k, v]) ∧
    MachineGet.execute (MachineStore.set store (canonKey k) v) [k] =
      Except.ok (MachineStore.set store (canonKey k) v, Reply.ok [k, v]) := by
  constructor
  · rfl
  · simp [MachineGet.execute, MachineStore.set, MachineStore.get]

/-- C2: evaluation of the handlers at every arity class.  `machine.set`
with 0 or 1 arguments and `machine.get` with 0 or 2 arguments answer with
the arity error reply, but `machine.set` with 3 arguments lets an
`UnboundLocalError` escape `execute` instead of producing the error reply
the claim (and the spec) promises — the guard tests `len(c.args) < 2`
where `MachineGet` tests `!= 1`, and the `except` clause then references
the never-bound `k`. -/
theorem machine_commands_arity_eval :
    MachineSet.execute [] [] = Except.ok ([], Reply.error [setArityMsg]) ∧
    MachineSet.execute [] ["a".data] = Except.ok ([], Reply.error [setArityMsg]) ∧
    MachineSet.execute [] ["a".data, "b".data, "c".data] =
      Except.error (PyErr.unboundLocalError "k") ∧
    MachineGet.execute [] [] = Except.ok ([], Reply.error [getArityMsg]) ∧
    MachineGet.execute [] ["a".data, "b".data] =
      Except.ok ([], Reply.error [getArityMsg]) :=
  ⟨rfl, rfl, rfl, rfl, rfl⟩

/-- C3: a command that resolved to the `machine.set` handler and whose
handler raises internally (the tuple unpack's `ValueError` on a
three-argument call) produces no error reply at all: the `except` clause
itself raises `UnboundLocalError`, which escapes `execute` uncaught. -/
theorem machine_set_internal_error_escapes :
    MachineSet.execute [("x".data, "y".data)] ["p.q".data, "v".data, "w".data] =
      Except.error (PyErr.unboundLocalError "k") := rfl

/-- C4: `machine.get` on a key whose canonical form is absent from the
store produces an error reply carrying the key and the UnknownKeyError
diagnostic — the `except Exception` clause converts the lookup failure
into a reply, never into an escaping exception. -/
theorem machine_get_unknown_key_error_reply (store : MachineStore) (k : List Char)
    (h : MachineStore.get store (canonKey k) = none) :
    MachineGet.execute store [k] =
      Except.ok (store, Reply.error [k, unknownKeyMsg (canonKey k)]) := by
  simp [MachineGet.execute, h]

/-- C4 witness: the empty store and the key `"a.b"`. -/
theorem machine_get_unknown_key_error_reply_witness :
    MachineGet.execute [] ["a.b".data] =
      Except.ok ([], Reply.error ["a.b".data, unknownKeyMsg (canonKey "a.b".data)]) :=
  machine_get_unknown_key_error_reply [] "a.b".data rfl

/-- C5 counterexample: canonicalization is the total transform
`replace('.', ':')` — it does not fail on empty or delimiter-only input
(both are returned unchanged) and it can produce empty segments:
`"a..b"` canonicalizes to `"a::b"`, whose colon-split contains the empty
segment, contradicting the claim's MalformedPathError and no-empty-segment
guarantees. -/
theorem canon_total_empty_segments_cex :
    canonKey "a..b".data = "a::b".data ∧
    ([] : List Char) ∈ splitOnChar ':' (canonKey "a..b".data) ∧
    canonKey "".data = [] ∧
    canonKey ":::".data = ":::".data := by
  refine ⟨rfl, ?_, rfl, rfl⟩
  decide

/-- C5 amended: canonicalization (every dot replaced by a colon) is
idempotent, and a key and its dot-delimited spelling canonicalize to the
identical canonical key; but it is total — it never rejects empty or
delimiter-only input and never removes empty segments. -/
theorem canon_idempotent_delimiter_blind :
    (∀ s, canonKey (canonKey s) = canonKey s) ∧
    (∀ s, canonKey (colonToDot s) = canonKey s) := by
  constructor
  · intro s
    induction s with
    | nil => rfl
    | cons c cs ih =>
      simp [canonKey] at ih ⊢
      exact ⟨canonChar_idem c, ih⟩
  · intro s
    induction s with
    | nil => rfl
    | cons c cs ih =>
      simp [canonKey, colonToDot] at ih ⊢
      exact ⟨canonChar_colonToDot c, ih⟩

/-- C6: every scheduled tick of the thermal PID watcher raises
`AttributeError` before any duty cycle is computed or applied — for every
watcher state and every sensor outcome, `set_pid` fails at
`self.error` (never initialised) or at `self.target` (the constructor
sets `target_temp`); `self.p`/`self.i`/`self.d` and `self.coef_td` would
fail further down the chain. -/
theorem temp_watcher_set_pid_always_raises (s : TempWatcher) (r : ReadOutcome) :
    TempWatcher.set_pid s r = Except.error (PyErr.attributeError "error") ∨
    TempWatcher.set_pid s r = Except.error (PyErr.attributeError "target") := by
  obtain ⟨tt, bb, cg, ci, cd, er, el, es, ed⟩ := s
  cases er with
  | none => exact Or.inl rfl
  | some e => exact Or.inr rfl

/-- C7 counterexample: on a tick whose sensor read fails inside the
`try`, `get_temperature` does not return at all — the `except IOError`
handler raises `NameError` (`logging` is unbound at module scope), so the
claim's skip-and-hold (a normal, logged return with the value held) does
not happen. -/
theorem get_temperature_read_failure_not_skipped_cex :
    TempWatcher.get_temperature ReadOutcome.readFail =
      Except.error (PyErr.nameError "logging") := rfl

/-- C7 amended: on a failed sensor read the `except IOError` handler
itself raises `NameError` (gpio.py never imports `logging` at module
scope), which escapes `get_temperature`; a failing `open` propagates its
`IOError` directly (it sits outside the `try`), and unparseable file
content raises `ValueError`, which `except IOError` does not catch.  No
log is written, no previous value is held, and the unreachable fallback
would have fed the sentinel `-1.0` into the PID computation rather than
skipping the tick. -/
theorem get_temperature_failure_behavior :
    TempWatcher.get_temperature ReadOutcome.readFail =
      Except.error (PyErr.nameError "logging") ∧
    TempWatcher.get_temperature ReadOutcome.openFail = Except.error PyErr.ioError ∧
    TempWatcher.get_temperature ReadOutcome.badContent = Except.error PyErr.valueError :=
  ⟨rfl, rfl, rfl⟩

/-- C8 counterexample: a switch whose level toggled twice within one poll
interval — the edge-event flag is set but the level read back equals the
previous state (`true`).  `update_state` nevertheless returns `True`, so
a trigger carrying the unchanged state is submitted, where the claim
requires none. -/
theorem switch_trigger_unchanged_state_cex :
    (RemoteServer.detect_gpio_step ⟨true, true⟩ ⟨true, false⟩ "switch_0").1.state = true ∧
    (RemoteServer.detect_gpio_step ⟨true, true⟩ ⟨true, false⟩ "switch_0").2 =
      [("switch_0", true)] :=
  ⟨rfl, rfl⟩

/-- C8 amended: a trigger is submitted on a poll exactly when the GPIO
edge-event flag is set for the pin, and it carries the freshly read pin
level — no comparison with the previously stored state is made and the
configured `invert` flag is never consulted. -/
theorem switch_trigger_iff_event_flag (g : GpioPinState) (s : SwitchHandlerState)
    (a : String) :
    RemoteServer.detect_gpio_step g s a =
      if g.eventDetected then ({ s with state := g.input }, [(a, g.input)])
      else (s, []) := by
  obtain ⟨ev, inp⟩ := g
  cases ev with
  | false => rfl
  | true => rfl

/-- C9 counterexample: the source's uid removes the FIRST occurrence of
`'/ok'` anywhere in the path, not an ok/error suffix: on the path
`"/ok/x"` (no ok/error suffix) the code's uid is `"/x a"` while the
spec-worded derivation keeps the path and yields `"/ok/x a"`; and the ok
reply to that request (path `"/ok/x/ok"`) gets uid `"/x/ok a"`, different
from the request's — the claimed request/reply agreement fails. -/
theorem uid_first_occurrence_not_suffix_cex :
    OscMessage.uid "/ok/x".data ["a".data] = Except.ok "/x a".data ∧
    OscMessage.uidSpec "/ok/x".data ["a".data] = Except.ok "/ok/x a".data ∧
    OscMessage.uid (OscMessage.replyPathOk "/ok/x".data) ["a".data] =
      Except.ok "/x/ok a".data ∧
    "/x a".data ≠ "/ok/x a".data ∧
    "/x a".data ≠ "/x/ok a".data := by
  refine ⟨rfl, rfl, rfl, by decide, by decide⟩

/-- C9 amended: the correlation id deletes the first occurrence of
`'/ok'` and then of `'/error'` anywhere in the path; if the result
contains `'/ping'` it is the cleaned path alone, otherwise the cleaned
path joined with the first argument.  For every request whose path
contains no occurrence of `'/ok'` or `'/error'`, the request and its ok
or error reply (same first argument) have equal correlation ids. -/
theorem uid_request_reply_agreement (p a : List Char) (rest : List (List Char))
    (hok : occursIn OscMessage.okPat p = false)
    (herr : occursIn OscMessage.errPat p = false) :
    OscMessage.uid (OscMessage.replyPathOk p) (a :: rest) =
      OscMessage.uid p (a :: rest) ∧
    OscMessage.uid (OscMessage.replyPathError p) (a :: rest) =
      OscMessage.uid p (a :: rest) := by
  have hclean : OscMessage.cleanPath p = p := by
    unfold OscMessage.cleanPath
    rw [removeFirst_of_not_occurs _ _ hok, removeFirst_of_not_occurs _ _ herr]
  have hcleanOk : OscMessage.cleanPath (OscMessage.replyPathOk p) = p := by
    unfold OscMessage.cleanPath OscMessage.replyPathOk
    rw [removeFirst_append_self _ _ (by decide) (overlap_of_all _ _ (by decide)) hok,
        removeFirst_of_not_occurs _ _ herr]
  have hcleanErr : OscMessage.cleanPath (OscMessage.replyPathError p) = p := by
    unfold OscMessage.cleanPath OscMessage.replyPathError
    have hin : occursIn OscMessage.okPat (p ++ OscMessage.errPat) = false :=
      occursIn_append_false _ _ _ (overlap_of_all _ _ (by decide)) hok (by decide)
    rw [removeFirst_of_not_occurs _ _ hin,
        removeFirst_append_self _ _ (by decide) (overlap_of_all _ _ (by decide)) herr]
  constructor <;> simp only [OscMessage.uid, hclean, hcleanOk, hcleanErr]

/-- C9 amended witness: the request path `"/x/get"` with first argument
`"k"`. -/
theorem uid_request_reply_agreement_witness :
    OscMessage.uid (OscMessage.replyPathOk "/x/get".data) ["k".data] =
      OscMessage.uid "/x/get".data ["k".data] ∧
    OscMessage.uid (OscMessage.replyPathError "/x/get".data) ["k".data] =
      OscMessage.uid "/x/get".data ["k".data] :=
  uid_request_reply_agreement "/x/get".data "k".data [] (by decide) (by decide)

/-- C10: reading the uid of a non-ping message with an empty argument
list fails with `IndexError` (`key_arg = self.args[0]`); with at least
one argument the uid is always returned normally, so the operation is
total exactly under the precondition that every non-ping message carries
at least one argument. -/
theorem uid_indexerror_on_empty_args :
    (∀ p, occursIn OscMessage.pingPat (OscMessage.cleanPath p) = false →
      OscMessage.uid p [] = Except.error PyErr.indexError) ∧
    (∀ p a rest, ∃ u, OscMessage.uid p (a :: rest) = Except.ok u) := by
  constructor
  · intro p h
    simp [OscMessage.uid, h]
  · intro p a rest
    by_cases h : occursIn OscMessage.pingPat (OscMessage.cleanPath p) = true
    · exact ⟨OscMessage.cleanPath p, by simp [OscMessage.uid, h]⟩
    · rw [Bool.not_eq_true] at h
      exact ⟨OscMessage.cleanPath p ++ ' ' :: a, by simp [OscMessage.uid, h]⟩

/-- C10 witness: the non-ping path `"/machine/get"`. -/
theorem uid_indexerror_on_empty_args_witness :
    OscMessage.uid "/machine/get".data [] = Except.error PyErr.indexError ∧
    ∃ u, OscMessage.uid "/machine/get".data ["a".data] = Except.ok u :=
  ⟨uid_indexerror_on_empty_args.1 "/machine/get".data (by decide),
   uid_indexerror_on_empty_args.2 "/machine/get".data "a".data []⟩
